import Mathlib

/-!
# Verification of the AnsibleZone certificate-issuance core

Shallow embedding of the Istio CA / node-agent sources (Go) into Lean 4.

Conventions:
- Go `time.Duration` is an `int64` count of nanoseconds; all durations here
  are nonnegative and embedded as `Nat` nanoseconds.
- `fatalf` (log + `os.Exit(-1)`) is embedded as an explicit exit outcome
  carried in the trace structures (`exitMsg`).
- The Kubernetes clientset and controllers are external glue; `runCA` records
  which components were constructed and with which TTL arguments instead of
  running them.
- `ca.NewIstioCA` and `ca.NewSelfSignedIstioCA` live outside the provided
  sources; `createCA` therefore takes their results as function parameters.
-/

/-! ## Time units (Go `time` package constants, in nanoseconds) -/

def second : Nat := 1000000000

def minute : Nat := 60 * second

def hour : Nat := 60 * minute

def day : Nat := 24 * hour

/-! ## Node agent configuration (package `na`) -/

namespace na

/-- `defaultCSRInitialRetrialInterval` is the default value of
`Config.CSRInitialRetrialInterval` (`time.Second * 5`). -/
def defaultCSRInitialRetrialInterval : Nat := 5 * second

/-- `defaultCSRMaxRetries` is the default value of `Config.CSRMaxRetries`. -/
def defaultCSRMaxRetries : Nat := 5

/-- `defaultCSRGracePeriodPercentage` is the default value of
`Config.CSRGracePeriodPercentage`. -/
def defaultCSRGracePeriodPercentage : Nat := 50

/-- `Config` is the node agent configuration. The platform config and logging
options are external collaborators and are omitted; all scalar fields are kept
with their Go zero values in `NewConfig`. -/
structure Config where
  IstioCAAddress : String
  ServiceIdentityOrg : String
  WorkloadCertTTL : Nat
  RSAKeySize : Nat
  Env : String
  CSRInitialRetrialInterval : Nat
  CSRMaxRetries : Nat
  CSRGracePeriodPercentage : Nat
deriving DecidableEq

/-- `NewConfig` creates a new `Config` instance with default values. -/
def NewConfig : Config :=
  { IstioCAAddress := ""
    ServiceIdentityOrg := ""
    WorkloadCertTTL := 0
    RSAKeySize := 0
    Env := ""
    CSRInitialRetrialInterval := defaultCSRInitialRetrialInterval
    CSRMaxRetries := defaultCSRMaxRetries
    CSRGracePeriodPercentage := defaultCSRGracePeriodPercentage }

end na

/-! ## The `istio_ca` command (package `main`) -/

namespace istioca

def defaultCACertTTL : Nat := 365 * 24 * hour

def defaultWorkloadCertTTL : Nat := hour

def maxWorkloadCertTTL : Nat := 7 * 24 * hour

/-- The default issuer organization for self-signed CA certificate. -/
def selfSignedCAOrgDefault : String := "k8s.cluster.local"

/-- Command-line options of the `istio_ca` binary (`cliOptions`). The Go field
`namespace` is a Lean keyword and is embedded as `namespaceOpt`. -/
structure cliOptions where
  certChainFile : String
  signingCertFile : String
  signingKeyFile : String
  rootCertFile : String
  namespaceOpt : String
  istioCaStorageNamespace : String
  kubeConfigFile : String
  selfSignedCA : Bool
  selfSignedCAOrg : String
  caCertTTL : Nat
  workloadCertTTL : Nat
  maxWorkloadCertTTL : Nat
  grpcHostname : String
  grpcPort : Int
deriving DecidableEq

/-- The flag defaults registered in `init` (`flags.StringVar` / `DurationVar` /
`BoolVar` / `IntVar` default arguments). -/
def defaultCliOptions : cliOptions :=
  { certChainFile := ""
    signingCertFile := ""
    signingKeyFile := ""
    rootCertFile := ""
    namespaceOpt := ""
    istioCaStorageNamespace := "istio-system"
    kubeConfigFile := ""
    selfSignedCA := false
    selfSignedCAOrg := "k8s.cluster.local"
    caCertTTL := defaultCACertTTL
    workloadCertTTL := defaultWorkloadCertTTL
    maxWorkloadCertTTL := maxWorkloadCertTTL
    grpcHostname := "localhost"
    grpcPort := 0 }

/-- `verifyCommandLineOptions`: returns `some msg` when `fatalf` fires
(process exit), `none` when verification passes. -/
def verifyCommandLineOptions (opts : cliOptions) : Option String :=
  if opts.selfSignedCA then
    none
  else if opts.signingCertFile = "" then
    some "No signing cert has been specified"
  else if opts.signingKeyFile = "" then
    some "No signing key has been specified"
  else if opts.rootCertFile = "" then
    some "No root cert has been specified"
  else
    none

/-- `ca.IstioCAOptions` as filled in by `createCA`. Certificate and key bytes
are abstract strings; `certChainBytes` is `none` when no chain file was given. -/
structure IstioCAOptions where
  certChainBytes : Option String
  certTTL : Nat
  maxCertTTL : Nat
  signingCertBytes : Option String
  signingKeyBytes : Option String
  rootCertBytes : Option String
deriving DecidableEq

/-- Trace of one `createCA` call: whether `fatalf` fired (`exitMsg`), which
construction path ran, whether a CA was actually constructed (`false` models
the nil `*IstioCA` returned when `ca.NewIstioCA` errors), whether
`log.Errorf` was called without exiting, and the file names passed to
`readFile`, in call order. -/
structure CreateCATrace where
  exitMsg : Option String
  selfSignedPath : Bool
  caConstructed : Bool
  errorLogged : Bool
  filesRead : List String
deriving DecidableEq

/-- `readFile` applied to each name in order: `fatalf` at the first missing
file. Returns the exit message (if any) and the names actually passed to
`readFile` before stopping. -/
def readSeq (files : String → Option String) : List String → Option String × List String
  | [] => (none, [])
  | n :: rest =>
    match files n with
    | none => (some ("Failed to read file " ++ n), [n])
    | some _ =>
      let r := readSeq files rest
      (r.1, n :: r.2)

/-- `createCA`: the filesystem is `files`, and the two CA constructors (which
live outside the provided sources) are passed as parameters returning
`Except`. Mirrors the source: the self-signed branch exits via `fatalf` on
constructor error, while the external-material branch only logs the
`NewIstioCA` error via `log.Errorf` and returns the (nil) CA. -/
def createCA (opts : cliOptions) (files : String → Option String)
    (newSelfSignedIstioCA : Nat → Nat → Nat → String → String → Except String Unit)
    (newIstioCA : IstioCAOptions → Except String Unit) : CreateCATrace :=
  if opts.selfSignedCA then
    match newSelfSignedIstioCA opts.caCertTTL opts.workloadCertTTL
        opts.maxWorkloadCertTTL opts.selfSignedCAOrg opts.istioCaStorageNamespace with
    | .ok _ =>
      { exitMsg := none, selfSignedPath := true, caConstructed := true
        errorLogged := false, filesRead := [] }
    | .error _ =>
      { exitMsg := some "Failed to create a self-signed Istio CA"
        selfSignedPath := true, caConstructed := false
        errorLogged := false, filesRead := [] }
  else
    let names :=
      (if opts.certChainFile = "" then [] else [opts.certChainFile]) ++
        [opts.signingCertFile, opts.signingKeyFile, opts.rootCertFile]
    match readSeq files names with
    | (some e, rs) =>
      { exitMsg := some e, selfSignedPath := false, caConstructed := false
        errorLogged := false, filesRead := rs }
    | (none, rs) =>
      let caOpts : IstioCAOptions :=
        { certChainBytes := if opts.certChainFile = "" then none else files opts.certChainFile
          certTTL := opts.workloadCertTTL
          maxCertTTL := opts.maxWorkloadCertTTL
          signingCertBytes := files opts.signingCertFile
          signingKeyBytes := files opts.signingKeyFile
          rootCertBytes := files opts.rootCertFile }
      match newIstioCA caOpts with
      | .ok _ =>
        { exitMsg := none, selfSignedPath := false, caConstructed := true
          errorLogged := false, filesRead := rs }
      | .error _ =>
        { exitMsg := none, selfSignedPath := false, caConstructed := false
          errorLogged := true, filesRead := rs }

/-- Trace of one `runCA` call: whether startup aborted (`exitMsg`), the
`createCA` trace when reached, whether a working CA was constructed, and the
TTL arguments handed to `controller.NewSecretController` and `grpc.New`
(`none` when the component was not constructed). -/
structure RunTrace where
  exitMsg : Option String
  caTrace : Option CreateCATrace
  caConstructed : Bool
  secretControllerTTL : Option Nat
  grpcServerTTL : Option Nat
deriving DecidableEq

/-- `runCA`: verifies options, creates the CA, then constructs the secret
controller with `opts.workloadCertTTL` and — when `grpcPort > 0` — the gRPC
server with `opts.maxWorkloadCertTTL`. The namespace environment-variable
lookup and the clientset construction are external glue and are elided (they
touch no field the verification or CA construction reads). -/
def runCA (opts : cliOptions) (files : String → Option String)
    (newSelfSignedIstioCA : Nat → Nat → Nat → String → String → Except String Unit)
    (newIstioCA : IstioCAOptions → Except String Unit) : RunTrace :=
  match verifyCommandLineOptions opts with
  | some m =>
    { exitMsg := some m, caTrace := none, caConstructed := false
      secretControllerTTL := none, grpcServerTTL := none }
  | none =>
    match (createCA opts files newSelfSignedIstioCA newIstioCA).exitMsg with
    | some m =>
      { exitMsg := some m
        caTrace := some (createCA opts files newSelfSignedIstioCA newIstioCA)
        caConstructed := false, secretControllerTTL := none, grpcServerTTL := none }
    | none =>
      { exitMsg := none
        caTrace := some (createCA opts files newSelfSignedIstioCA newIstioCA)
        caConstructed := (createCA opts files newSelfSignedIstioCA newIstioCA).caConstructed
        secretControllerTTL := some opts.workloadCertTTL
        grpcServerTTL := if 0 < opts.grpcPort then some opts.maxWorkloadCertTTL else none }

end istioca

/-! ## CertificateAuthority.Sign (modelled from the spec) -/

namespace specca

/-- Failure modes of `Sign` listed in the spec. -/
inductive SignError
  | errInvalidCSR
  | errTTLExceedsPolicy
  | errSigningUnavailable
  | errSignerExpired
deriving DecidableEq

/-- An issued certificate's server-determined validity window (absolute
times in nanoseconds). -/
structure IssuedCert where
  notBefore : Nat
  notAfter : Nat
deriving DecidableEq

/-- Modelled from the spec: `ca.(*IstioCA).Sign` is not under `src/` (only its
caller `createCA` and the `ca.CertificateAuthority` references are). Per the
spec: `NotBefore = now`, `NotAfter = now + min(requestedTTL, policyTTL)` where
the policy TTL is the CA-certificate policy when `forCA` and the workload
ceiling otherwise; the issued certificate must never outlive the signer, and
the spec's scenario list says to pick one consistent policy for a signer with
insufficient remaining validity — we pick the strict `ErrSignerExpired`
refusal. A malformed CSR is rejected with `ErrInvalidCSR`. -/
def Sign (signerNotAfter maxWorkloadCertTTL caCertTTL now : Nat)
    (csrValid : Bool) (requestedTTL : Nat) (forCA : Bool) :
    Except SignError IssuedCert :=
  if !csrValid then
    .error .errInvalidCSR
  else
    let policyTTL := if forCA then caCertTTL else maxWorkloadCertTTL
    let ttl := min requestedTTL policyTTL
    if signerNotAfter < now + ttl then
      .error .errSignerExpired
    else
      .ok { notBefore := now, notAfter := now + ttl }

end specca

/-! ## NodeAgentClient renewal state machine (modelled from the spec) -/

namespace specna

/-- The agent-side persisted credential: validity window of the held
certificate (absolute nanosecond times). -/
structure Credential where
  notBefore : Nat
  notAfter : Nat
deriving DecidableEq

/-- Modelled from the spec: the node agent sources are not under `src/` (only
the `na.Config` defaults are). Renewal deadline
`NotBefore + (NotAfter - NotBefore) * gracePeriodPercentage / 100`. -/
def renewalDeadline (grace nb na : Nat) : Nat :=
  nb + (na - nb) * grace / 100

/-- The renewal state machine of the spec: `Requesting`/`Renewing` carry the
number of failed attempts so far. -/
inductive AgentState
  | uninitialized
  | requesting (attempts : Nat)
  | holding (cred : Credential)
  | renewing (cred : Credential) (attempts : Nat)
  | failed
deriving DecidableEq

/-- One signer response: a freshly issued credential window, or a transient
(recoverable) error. -/
inductive SignerResp
  | issued (nb na : Nat)
  | transient
deriving DecidableEq

/-- Modelled from the spec: one transition of the agent loop. A transient
failure increments the attempt count up to `maxRetries`; exhaustion is
terminal `failed` only when no still-valid credential is held, otherwise the
agent keeps the credential and goes back to `holding` (from where the passed
renewal deadline sends it straight back into `renewing`). -/
def agentStep (maxRetries grace now : Nat) (resp : SignerResp) :
    AgentState → AgentState
  | .uninitialized => .requesting 0
  | .requesting k =>
    match resp with
    | .issued nb na => .holding ⟨nb, na⟩
    | .transient => if k + 1 < maxRetries then .requesting (k + 1) else .failed
  | .holding c =>
    if renewalDeadline grace c.notBefore c.notAfter ≤ now then .renewing c 0
    else .holding c
  | .renewing c k =>
    match resp with
    | .issued nb na => .holding ⟨nb, na⟩
    | .transient =>
      if k + 1 < maxRetries then .renewing c (k + 1)
      else if now < c.notAfter then .holding c
      else .failed
  | .failed => .failed

/-- `n` steps of the loop against a signer that always returns a transient
error. -/
def iterTransient (maxRetries grace now : Nat) : Nat → AgentState → AgentState
  | 0, s => s
  | n + 1, s => iterTransient maxRetries grace now n (agentStep maxRetries grace now .transient s)

/-- Modelled from the spec: retries happen at the fixed configured interval,
so the `k`-th retry of a burst started at `t0` fires at `t0 + k * interval`. -/
def retryTime (interval t0 k : Nat) : Nat := t0 + k * interval

end specna

/-! ## Self-signed CA bootstrap (modelled from the spec) -/

namespace specboot

/-- Stored root material: an opaque identifier for the generated key+cert
bytes plus the root's validity window. -/
structure Root where
  material : Nat
  notBefore : Nat
  notAfter : Nat
deriving DecidableEq

/-- Modelled from the spec: a stored root is reusable when it is valid and
not near expiry (its remaining validity exceeds the rotation threshold). -/
def rootValid (now rotationThreshold : Nat) (r : Root) : Bool :=
  decide (now + rotationThreshold < r.notAfter)

/-- Modelled from the spec: `ca.NewSelfSignedIstioCA` / `Bootstrap` is not
under `src/` (only its caller `createCA` is). If storage already holds a
valid (not near expiry) root, reuse it instead of regenerating; otherwise
generate a fresh root (`freshMaterial` stands for the nondeterministically
generated key pair), self-sign it for `caTTL`, and persist it. Returns the
root material handed to the CA together with the updated storage. -/
def Bootstrap (now caTTL rotationThreshold freshMaterial : Nat)
    (store : Option Root) : Root × Option Root :=
  match store with
  | some r =>
    if rootValid now rotationThreshold r then (r, some r)
    else
      let newRoot : Root := ⟨freshMaterial, now, now + caTTL⟩
      (newRoot, some newRoot)
  | none =>
    let newRoot : Root := ⟨freshMaterial, now, now + caTTL⟩
    (newRoot, some newRoot)

end specboot

/-! ## Concrete sample inputs used by witnesses and counterexample runs -/

namespace istioca

/-- A filesystem where every file exists. -/
def filesAll : String → Option String := fun _ => some "PEMDATA"

/-- A `NewSelfSignedIstioCA` that succeeds. -/
def nssOk : Nat → Nat → Nat → String → String → Except String Unit :=
  fun _ _ _ _ _ => .ok ()

/-- A `NewIstioCA` that succeeds. -/
def ncaOk : IstioCAOptions → Except String Unit := fun _ => .ok ()

/-- A `NewIstioCA` that fails (for example on a key/cert mismatch or a
malformed root certificate). -/
def ncaErr : IstioCAOptions → Except String Unit :=
  fun _ => .error "failed to create the CA from the signing material"

/-- Options for a run with externally provisioned signing material. -/
def extOpts : cliOptions :=
  { defaultCliOptions with
    signingCertFile := "ca.crt", signingKeyFile := "ca.key", rootCertFile := "root.crt" }

/-- `extOpts` with the gRPC server enabled. -/
def extOptsGrpc : cliOptions := { extOpts with grpcPort := 8060 }

/-- Options for a self-signed run. -/
def ssOpts : cliOptions := { defaultCliOptions with selfSignedCA := true }

end istioca

/-- Claim C5: `NewConfig` returns the documented node-agent defaults
(retry interval 5s, max retries 5, grace 50%), and the CA binary's TTL
defaults are workload TTL 1h, max workload TTL 7 days, CA cert TTL 365 days,
both as constants and as the registered flag defaults. -/
theorem default_config_values :
    na.NewConfig.CSRInitialRetrialInterval = 5 * second ∧
    na.NewConfig.CSRMaxRetries = 5 ∧
    na.NewConfig.CSRGracePeriodPercentage = 50 ∧
    istioca.defaultCliOptions.workloadCertTTL = hour ∧
    istioca.defaultCliOptions.maxWorkloadCertTTL = 7 * day ∧
    istioca.defaultCliOptions.caCertTTL = 365 * day ∧
    istioca.defaultWorkloadCertTTL = hour ∧
    istioca.maxWorkloadCertTTL = 7 * day ∧
    istioca.defaultCACertTTL = 365 * day := by
  refine ⟨rfl, rfl, rfl, rfl, by decide, by decide, rfl, by decide, by decide⟩

/-- Claim C3 (code evidence): when `ca.NewIstioCA` fails in non-self-signed
mode, `createCA` only logs the error and startup proceeds — `runCA` does not
exit and still constructs the secret controller, with no CA behind it. -/
theorem newIstioCA_failure_not_fatal :
    (istioca.runCA istioca.extOpts istioca.filesAll istioca.nssOk istioca.ncaErr).exitMsg = none ∧
    (istioca.runCA istioca.extOpts istioca.filesAll istioca.nssOk istioca.ncaErr).caConstructed = false ∧
    (istioca.runCA istioca.extOpts istioca.filesAll istioca.nssOk istioca.ncaErr).secretControllerTTL =
      some istioca.extOpts.workloadCertTTL ∧
    (istioca.createCA istioca.extOpts istioca.filesAll istioca.nssOk istioca.ncaErr).errorLogged = true := by
  refine ⟨?_, ?_, ?_, ?_⟩ <;> rfl

/-- Claim C4: with self-signed mode disabled and any of the signing-cert,
signing-key or root-cert options empty, `runCA` aborts inside
`verifyCommandLineOptions`, before the CA, the secret controller, or the gRPC
server is created. -/
theorem missing_signing_material_aborts (opts : istioca.cliOptions)
    (files : String → Option String)
    (nss : Nat → Nat → Nat → String → String → Except String Unit)
    (nca : istioca.IstioCAOptions → Except String Unit)
    (hss : opts.selfSignedCA = false)
    (h : opts.signingCertFile = "" ∨ opts.signingKeyFile = "" ∨ opts.rootCertFile = "") :
    ((istioca.runCA opts files nss nca).exitMsg).isSome = true ∧
    (istioca.runCA opts files nss nca).caTrace = none ∧
    (istioca.runCA opts files nss nca).secretControllerTTL = none ∧
    (istioca.runCA opts files nss nca).grpcServerTTL = none := by
  have hv : ∃ m, istioca.verifyCommandLineOptions opts = some m := by
    unfold istioca.verifyCommandLineOptions
    rw [hss]
    rcases h with h1 | h1 | h1 <;>
      [skip; by_cases hc : opts.signingCertFile = "";
        (by_cases hc : opts.signingCertFile = "" <;> by_cases hk : opts.signingKeyFile = "")] <;>
      simp [*]
  obtain ⟨m, hm⟩ := hv
  unfold istioca.runCA
  rw [hm]
  exact ⟨rfl, rfl, rfl, rfl⟩

theorem missing_signing_material_aborts_witness :
    ((istioca.runCA istioca.defaultCliOptions istioca.filesAll istioca.nssOk istioca.ncaOk).exitMsg).isSome = true ∧
    (istioca.runCA istioca.defaultCliOptions istioca.filesAll istioca.nssOk istioca.ncaOk).caTrace = none := by
  have h := missing_signing_material_aborts istioca.defaultCliOptions istioca.filesAll
    istioca.nssOk istioca.ncaOk rfl (Or.inl rfl)
  exact ⟨h.1, h.2.1⟩

/-- Claim C9: with self-signed mode enabled, option verification succeeds
unconditionally, `createCA` takes the self-signed path, no file named by the
signing-cert / signing-key / root-cert options is ever read, and the outcome
is independent of the values of those three options. -/
theorem self_signed_ignores_signing_options (opts : istioca.cliOptions)
    (files : String → Option String)
    (nss : Nat → Nat → Nat → String → String → Except String Unit)
    (nca : istioca.IstioCAOptions → Except String Unit)
    (hss : opts.selfSignedCA = true) :
    istioca.verifyCommandLineOptions opts = none ∧
    (istioca.createCA opts files nss nca).selfSignedPath = true ∧
    (istioca.createCA opts files nss nca).filesRead = [] ∧
    (∀ a b c, istioca.createCA
        { opts with signingCertFile := a, signingKeyFile := b, rootCertFile := c }
        files nss nca = istioca.createCA opts files nss nca) := by
  refine ⟨?_, ?_, ?_, ?_⟩
  · simp [istioca.verifyCommandLineOptions, hss]
  · unfold istioca.createCA
    rw [hss]
    cases nss opts.caCertTTL opts.workloadCertTTL opts.maxWorkloadCertTTL
        opts.selfSignedCAOrg opts.istioCaStorageNamespace <;> rfl
  · unfold istioca.createCA
    rw [hss]
    cases nss opts.caCertTTL opts.workloadCertTTL opts.maxWorkloadCertTTL
        opts.selfSignedCAOrg opts.istioCaStorageNamespace <;> rfl
  · intro a b c
    unfold istioca.createCA
    rw [hss]
    rfl

theorem self_signed_ignores_signing_options_witness :
    istioca.verifyCommandLineOptions istioca.ssOpts = none ∧
    (istioca.createCA istioca.ssOpts istioca.filesAll istioca.nssOk istioca.ncaOk).filesRead = [] := by
  have h := self_signed_ignores_signing_options istioca.ssOpts istioca.filesAll
    istioca.nssOk istioca.ncaOk rfl
  exact ⟨h.1, h.2.2.1⟩

/-- Claim C10: whenever `runCA` does not abort, the secret controller is
constructed with the configured workload cert TTL while the gRPC server (when
enabled) is constructed with the configured max workload cert TTL, and at the
registered flag defaults those two parameters differ (1 hour vs 7 days). -/
theorem issuance_paths_use_distinct_ttls (opts : istioca.cliOptions)
    (files : String → Option String)
    (nss : Nat → Nat → Nat → String → String → Except String Unit)
    (nca : istioca.IstioCAOptions → Except String Unit)
    (h : (istioca.runCA opts files nss nca).exitMsg = none) :
    (istioca.runCA opts files nss nca).secretControllerTTL = some opts.workloadCertTTL ∧
    (0 < opts.grpcPort →
      (istioca.runCA opts files nss nca).grpcServerTTL = some opts.maxWorkloadCertTTL) ∧
    istioca.defaultCliOptions.workloadCertTTL = hour ∧
    istioca.defaultCliOptions.maxWorkloadCertTTL = 7 * day ∧
    istioca.defaultCliOptions.workloadCertTTL ≠ istioca.defaultCliOptions.maxWorkloadCertTTL := by
  unfold istioca.runCA at h ⊢
  cases hv : istioca.verifyCommandLineOptions opts with
  | some m => rw [hv] at h; exact Option.noConfusion h
  | none =>
    cases hct : (istioca.createCA opts files nss nca).exitMsg with
    | some m => rw [hv, hct] at h; exact Option.noConfusion h
    | none =>
      refine ⟨rfl, ?_, rfl, by decide, by decide⟩
      intro hg
      show (if 0 < opts.grpcPort then some opts.maxWorkloadCertTTL else none) =
        some opts.maxWorkloadCertTTL
      rw [if_pos hg]

theorem issuance_paths_use_distinct_ttls_witness :
    (istioca.runCA istioca.extOptsGrpc istioca.filesAll istioca.nssOk istioca.ncaOk).secretControllerTTL =
      some istioca.extOptsGrpc.workloadCertTTL ∧
    (istioca.runCA istioca.extOptsGrpc istioca.filesAll istioca.nssOk istioca.ncaOk).grpcServerTTL =
      some istioca.extOptsGrpc.maxWorkloadCertTTL := by
  have h := issuance_paths_use_distinct_ttls istioca.extOptsGrpc istioca.filesAll
    istioca.nssOk istioca.ncaOk (by decide)
  exact ⟨h.1, h.2.1 (by decide)⟩

/-- Claim C1: every certificate accepted by `Sign` has validity duration
`NotAfter - NotBefore = min(requestedTTL, maxWorkloadCertTTL)`: exactly the
requested TTL when it is within policy, exactly the policy ceiling (never the
requested value) otherwise. -/
theorem sign_ttl_is_min_of_request_and_policy
    (sna maxTTL caTTL now req : Nat) (v : Bool) (cert : specca.IssuedCert)
    (h : specca.Sign sna maxTTL caTTL now v req false = .ok cert) :
    cert.notAfter - cert.notBefore = min req maxTTL ∧
    (req ≤ maxTTL → cert.notAfter - cert.notBefore = req) ∧
    (maxTTL < req → cert.notAfter - cert.notBefore = maxTTL) := by
  unfold specca.Sign at h
  cases v with
  | false => exact Except.noConfusion h
  | true =>
    simp only [Bool.not_true, Bool.false_eq_true, if_false, if_neg] at h
    by_cases hc : sna < now + min req maxTTL
    · rw [if_pos hc] at h
      exact Except.noConfusion h
    · rw [if_neg hc] at h
      injection h with h
      subst h
      refine ⟨by simp, fun hle => by simp [Nat.min_eq_left hle], fun hlt => by
        simp [Nat.min_eq_right (Nat.le_of_lt hlt)]⟩

theorem sign_ttl_is_min_of_request_and_policy_witness :
    (⟨0, 7⟩ : specca.IssuedCert).notAfter - (⟨0, 7⟩ : specca.IssuedCert).notBefore =
      min 7 10 := by
  exact (sign_ttl_is_min_of_request_and_policy 100 10 50 0 7 true ⟨0, 7⟩ rfl).1

/-- Claim C2: a certificate issued by `Sign` never has `NotAfter` beyond the
signer's `NotAfter`, and when the requested window would exceed the signer's
remaining validity `Sign` fails with `ErrSignerExpired`. -/
theorem sign_never_outlives_signer (sna maxTTL caTTL now req : Nat) (v fca : Bool) :
    (∀ cert : specca.IssuedCert,
      specca.Sign sna maxTTL caTTL now v req fca = .ok cert → cert.notAfter ≤ sna) ∧
    (v = true → sna < now + min req (if fca then caTTL else maxTTL) →
      specca.Sign sna maxTTL caTTL now v req fca = .error .errSignerExpired) := by
  constructor
  · intro cert h
    unfold specca.Sign at h
    cases v with
    | false => exact Except.noConfusion h
    | true =>
      simp only [Bool.not_true, Bool.false_eq_true, if_false, if_neg] at h
      by_cases hc : sna < now + min req (if fca then caTTL else maxTTL)
      · rw [if_pos hc] at h
        exact Except.noConfusion h
      · rw [if_neg hc] at h
        injection h with h
        subst h
        simpa using Nat.le_of_not_lt hc
  · intro hv hlt
    subst hv
    unfold specca.Sign
    simp only [Bool.not_true, Bool.false_eq_true, if_false, if_neg]
    rw [if_pos hlt]

theorem sign_never_outlives_signer_witness :
    (⟨0, 10⟩ : specca.IssuedCert).notAfter ≤ 100 ∧
    specca.Sign 5 10 50 0 true 200 false = .error .errSignerExpired := by
  constructor
  · exact (sign_never_outlives_signer 100 10 50 0 20 true false).1 ⟨0, 10⟩ rfl
  · exact (sign_never_outlives_signer 5 10 50 0 200 true false).2 rfl (by decide)

/-- Claim C8: bootstrap of the self-signed CA is idempotent — when storage
already holds a valid (not near expiry) root, `Bootstrap` returns that stored
root unchanged, so two successive calls return identical root material. -/
theorem bootstrap_idempotent (now1 now2 caTTL thr f1 f2 : Nat) (r : specboot.Root)
    (h1 : specboot.rootValid now1 thr r = true)
    (h2 : specboot.rootValid now2 thr r = true) :
    (specboot.Bootstrap now1 caTTL thr f1 (some r)).1 = r ∧
    (specboot.Bootstrap now2 caTTL thr f2
      ((specboot.Bootstrap now1 caTTL thr f1 (some r)).2)).1 = r := by
  have e1 : specboot.Bootstrap now1 caTTL thr f1 (some r) = (r, some r) := by
    show (if specboot.rootValid now1 thr r = true then (r, some r)
        else ((⟨f1, now1, now1 + caTTL⟩ : specboot.Root),
          some (⟨f1, now1, now1 + caTTL⟩ : specboot.Root))) = (r, some r)
    rw [if_pos h1]
  refine ⟨by rw [e1], ?_⟩
  rw [e1]
  show (if specboot.rootValid now2 thr r = true then ((r, some r) : specboot.Root × Option specboot.Root)
      else ((⟨f2, now2, now2 + caTTL⟩ : specboot.Root),
        some (⟨f2, now2, now2 + caTTL⟩ : specboot.Root))).1 = r
  rw [if_pos h2]

theorem bootstrap_idempotent_witness :
    (specboot.Bootstrap 0 50 10 7 (some ⟨1, 0, 100⟩)).1 = ⟨1, 0, 100⟩ ∧
    (specboot.Bootstrap 0 50 10 8
      ((specboot.Bootstrap 0 50 10 7 (some ⟨1, 0, 100⟩)).2)).1 = ⟨1, 0, 100⟩ := by
  exact bootstrap_idempotent 0 0 50 10 7 8 ⟨1, 0, 100⟩ (by decide) (by decide)

/-- One unrolling of `iterTransient` from the far end: `k + 1` steps are `k`
steps followed by one. -/
theorem iterTransient_succ (m g now k : Nat) (s : specna.AgentState) :
    specna.iterTransient m g now (k + 1) s =
      specna.agentStep m g now .transient (specna.iterTransient m g now k s) := by
  induction k generalizing s with
  | zero => rfl
  | succ k ih =>
    show specna.iterTransient m g now (k + 1) (specna.agentStep m g now .transient s) = _
    rw [ih]
    rfl

/-- Under an always-transient signer, the `requesting` state accumulates
attempts one by one while the budget lasts. -/
theorem iterTransient_requesting (m g now : Nat) :
    ∀ k i, i + k < m →
      specna.iterTransient m g now k (.requesting i) = .requesting (i + k) := by
  intro k
  induction k with
  | zero => intro i h; rfl
  | succ k ih =>
    intro i h
    have hstep : specna.agentStep m g now .transient (.requesting i) = .requesting (i + 1) := by
      show (if i + 1 < m then specna.AgentState.requesting (i + 1) else .failed) = _
      rw [if_pos (by omega)]
    show specna.iterTransient m g now k
        (specna.agentStep m g now .transient (.requesting i)) = _
    rw [hstep, ih (i + 1) (by omega)]
    congr 1
    omega

/-- Under an always-transient signer, the `renewing` state accumulates
attempts one by one while the budget lasts, keeping its credential. -/
theorem iterTransient_renewing (m g now : Nat) (c : specna.Credential) :
    ∀ k i, i + k < m →
      specna.iterTransient m g now k (.renewing c i) = .renewing c (i + k) := by
  intro k
  induction k with
  | zero => intro i h; rfl
  | succ k ih =>
    intro i h
    have hstep : specna.agentStep m g now .transient (.renewing c i) = .renewing c (i + 1) := by
      show (if i + 1 < m then specna.AgentState.renewing c (i + 1)
          else if now < c.notAfter then .holding c else .failed) = _
      rw [if_pos (by omega)]
    show specna.iterTransient m g now k
        (specna.agentStep m g now .transient (.renewing c i)) = _
    rw [hstep, ih (i + 1) (by omega)]
    congr 1
    omega

/-- Claim C6: against a signer that always fails transiently, the agent
reaches terminal `failed` after exactly `CSRMaxRetries` attempts from
`requesting`, but with a still-valid credential it returns to `holding`
instead (and a passed renewal deadline sends it straight back into
`renewing`, i.e. it keeps retrying); retries are spaced at the fixed
configured interval. -/
theorem retry_ceiling_exact (m g now t0 interval : Nat) (c : specna.Credential)
    (hm : 0 < m) (hc : now < c.notAfter) :
    specna.iterTransient m g now m (.requesting 0) = .failed ∧
    (∀ k, k < m → specna.iterTransient m g now k (.requesting 0) = .requesting k) ∧
    specna.iterTransient m g now m (.renewing c 0) = .holding c ∧
    (specna.renewalDeadline g c.notBefore c.notAfter ≤ now →
      specna.agentStep m g now .transient (.holding c) = .renewing c 0) ∧
    (∀ k, specna.retryTime interval t0 (k + 1) =
      specna.retryTime interval t0 k + interval) := by
  obtain ⟨j, rfl⟩ : ∃ j, m = j + 1 := ⟨m - 1, by omega⟩
  refine ⟨?_, ?_, ?_, ?_, ?_⟩
  · rw [iterTransient_succ, iterTransient_requesting (j + 1) g now j 0 (by omega)]
    show (if 0 + j + 1 < j + 1 then specna.AgentState.requesting (0 + j + 1) else .failed) = _
    rw [if_neg (by omega)]
  · intro k hk
    simpa using iterTransient_requesting (j + 1) g now k 0 (by omega)
  · rw [iterTransient_succ, iterTransient_renewing (j + 1) g now c j 0 (by omega)]
    show (if 0 + j + 1 < j + 1 then specna.AgentState.renewing c (0 + j + 1)
        else if now < c.notAfter then .holding c else .failed) = _
    rw [if_neg (by omega), if_pos hc]
  · intro hd
    show (if specna.renewalDeadline g c.notBefore c.notAfter ≤ now
        then specna.AgentState.renewing c 0 else .holding c) = _
    rw [if_pos hd]
  · intro k
    show t0 + (k + 1) * interval = t0 + k * interval + interval
    ring

theorem retry_ceiling_exact_witness :
    specna.iterTransient 5 50 0 5 (.requesting 0) = .failed ∧
    specna.iterTransient 5 50 0 5 (.renewing ⟨0, 10⟩ 0) = .holding ⟨0, 10⟩ := by
  have h := retry_ceiling_exact 5 50 0 0 5 ⟨0, 10⟩ (by decide) (by decide)
  exact ⟨h.1, h.2.2.1⟩

/-- Claim C7: the renewal deadline is
`NotBefore + (NotAfter - NotBefore) * grace / 100` — for TTL 1h and grace 50%
that is `NotBefore + 30min` — the renewal timer fires exactly at that
deadline (`holding` is left at the deadline and not before), and the deadline
is strictly before `NotAfter`. -/
theorem renewal_deadline_fires_exactly (m g now nbT naT : Nat)
    (hlt : nbT < naT) (hg : g < 100) :
    (∀ b, specna.renewalDeadline 50 b (b + hour) = b + 30 * minute) ∧
    (now < specna.renewalDeadline g nbT naT →
      specna.agentStep m g now .transient (.holding ⟨nbT, naT⟩) = .holding ⟨nbT, naT⟩) ∧
    (specna.renewalDeadline g nbT naT ≤ now →
      specna.agentStep m g now .transient (.holding ⟨nbT, naT⟩) = .renewing ⟨nbT, naT⟩ 0) ∧
    specna.renewalDeadline g nbT naT < naT := by
  refine ⟨?_, ?_, ?_, ?_⟩
  · intro b
    unfold specna.renewalDeadline
    rw [Nat.add_sub_cancel_left]
    norm_num [hour, minute, second]
  · intro hnow
    show (if specna.renewalDeadline g nbT naT ≤ now
        then specna.AgentState.renewing ⟨nbT, naT⟩ 0 else .holding ⟨nbT, naT⟩) = _
    rw [if_neg (by omega)]
  · intro hd
    show (if specna.renewalDeadline g nbT naT ≤ now
        then specna.AgentState.renewing ⟨nbT, naT⟩ 0 else .holding ⟨nbT, naT⟩) = _
    rw [if_pos hd]
  · unfold specna.renewalDeadline
    have h0 : 0 < naT - nbT := by omega
    have h2 : (naT - nbT) * g < (naT - nbT) * 100 := by
      exact mul_lt_mul_of_pos_left hg h0
    have h1 : (naT - nbT) * g / 100 < naT - nbT :=
      (Nat.div_lt_iff_lt_mul (by norm_num)).mpr h2
    omega

theorem renewal_deadline_fires_exactly_witness :
    specna.renewalDeadline 50 0 (0 + hour) = 0 + 30 * minute ∧
    specna.renewalDeadline 50 0 hour < hour := by
  have h := renewal_deadline_fires_exactly 5 50 0 0 hour (by decide) (by decide)
  exact ⟨h.1 0, h.2.2.2⟩
